import Mathlib

/-!
Verification of the PyEngine UI scripts.

This file gives a shallow embedding of the pure state and control logic of
`src/ui_stuff/window_gui.py` (easing helpers, `FocusableButton`,
`FocusableSlider`, the `GameFullUI` scene and focus state machine, the
`GlyphAtlas` row packer and the `TextRenderer` pen-advance loop), together
with models of the initialization paths of `src/ui_stuff/demo_gui.py`,
`src/ui_stuff/ui_debug_test.py` and `src/window.py`.  Real numbers from
the Python code are modelled as rationals; GL and GLFW library calls are
treated as external effects and elided, while every branch of the embedded
control flow mirrors the Python source line by line.
-/

/-! ## Easing utilities (window_gui.py lines 32-35) -/

/-- Source: `def lerp(a, b, t): return a + (b - a) * t` -/
def lerp (a b t : ℚ) : ℚ := a + (b - a) * t

/-- Source: `def clamp(x, a, b): return max(a, min(b, x))` (used both on rationals
and, in `build_focus_list`, on integer indices). -/
def clamp {α : Type} [LinearOrder α] (x a b : α) : α := max a (min b x)

/-! ## Focusable controls (window_gui.py lines 279-297) -/

/-- Actions that the Python code binds to buttons via lambdas closing over
the `GameFullUI` object.  Each constructor names the bound method. -/
inductive Act
  | startGame
  | toggleOptions
  | quitGame
  | resumeFromPause
  | gotoMenu
  | openPause
deriving DecidableEq

/-- Source: `@dataclass class FocusableButton` -/
structure FocusableButton where
  cx : ℚ
  cy : ℚ
  w : ℚ
  h : ℚ
  label : String
  action : Act
  hover : Bool := false
  focused : Bool := false
  visible : Bool := true
  enabled : Bool := true
deriving DecidableEq

/-- Source: `FocusableButton.contains` -/
def FocusableButton.contains (b : FocusableButton) (nx ny : ℚ) : Bool :=
  decide (b.cx - b.w / 2 ≤ nx ∧ nx ≤ b.cx + b.w / 2 ∧
    b.cy - b.h / 2 ≤ ny ∧ ny ≤ b.cy + b.h / 2)

/-- Source: `@dataclass class FocusableSlider` -/
structure FocusableSlider where
  cx : ℚ
  cy : ℚ
  w : ℚ
  h : ℚ
  minv : ℚ
  maxv : ℚ
  value : ℚ
  label : String
  dragging : Bool := false
  focused : Bool := false
  visible : Bool := true
  enabled : Bool := true
deriving DecidableEq

/-- Source: `def normalized(self): return (self.value - self.minv) / (self.maxv - self.minv)` -/
def FocusableSlider.normalized (s : FocusableSlider) : ℚ :=
  (s.value - s.minv) / (s.maxv - s.minv)

/-- Source: `def set_from_norm(self, t): self.value = self.minv + clamp(t, 0.0, 1.0) * (self.maxv - self.minv)` -/
def FocusableSlider.set_from_norm (s : FocusableSlider) (t : ℚ) : FocusableSlider :=
  { s with value := s.minv + clamp t 0 1 * (s.maxv - s.minv) }

/-- Source: `FocusableSlider.contains` -/
def FocusableSlider.contains (s : FocusableSlider) (nx ny : ℚ) : Bool :=
  decide (s.cx - s.w / 2 ≤ nx ∧ nx ≤ s.cx + s.w / 2 ∧
    s.cy - s.h / 2 ≤ ny ∧ ny ≤ s.cy + s.h / 2)

/-! ## Claim C2: slider value after set_from_norm -/

/-- C2: for every `FocusableSlider` and every rational `t` (including
`t < 0` and `t > 1`), after `set_from_norm t` the value field equals
`minv + max 0 (min 1 t) * (maxv - minv)`, i.e. `minv + clamp(t,0,1)*(maxv-minv)`. -/
theorem set_from_norm_value (s : FocusableSlider) (t : ℚ) :
    (s.set_from_norm t).value = s.minv + max 0 (min 1 t) * (s.maxv - s.minv) := rfl

/-! ## Claim C10: set_from_norm / normalized round trip -/

/-- C10: when `minv < maxv`, `set_from_norm` followed by `normalized` is the
identity on `[0,1]`, and after `set_from_norm` with any argument the value
lies in `[minv, maxv]` and `normalized` lies in `[0,1]`. -/
theorem slider_round_trip (s : FocusableSlider) (hlt : s.minv < s.maxv) :
    (∀ t : ℚ, 0 ≤ t → t ≤ 1 → (s.set_from_norm t).normalized = t) ∧
    (∀ t : ℚ,
      s.minv ≤ (s.set_from_norm t).value ∧
      (s.set_from_norm t).value ≤ s.maxv ∧
      0 ≤ (s.set_from_norm t).normalized ∧
      (s.set_from_norm t).normalized ≤ 1) := by
  have hd : (0 : ℚ) < s.maxv - s.minv := by linarith
  have hd0 : s.maxv - s.minv ≠ 0 := ne_of_gt hd
  have hnorm : ∀ t : ℚ, (s.set_from_norm t).normalized = clamp t 0 1 := by
    intro t
    unfold FocusableSlider.set_from_norm FocusableSlider.normalized
    field_simp
  have hc0 : ∀ t : ℚ, 0 ≤ clamp t 0 1 := fun t => le_max_left _ _
  have hc1 : ∀ t : ℚ, clamp t 0 1 ≤ 1 :=
    fun t => max_le (by norm_num) (min_le_left _ _)
  constructor
  · intro t h0 h1
    rw [hnorm]
    unfold clamp
    rw [min_eq_right h1, max_eq_right h0]
  · intro t
    have hv : (s.set_from_norm t).value = s.minv + clamp t 0 1 * (s.maxv - s.minv) := rfl
    refine ⟨?_, ?_, ?_, ?_⟩
    · rw [hv]
      nlinarith [hc0 t]
    · rw [hv]
      nlinarith [hc1 t, hc0 t]
    · rw [hnorm]; exact hc0 t
    · rw [hnorm]; exact hc1 t

/-- C10 witness: the round trip evaluated on the concrete slider
`FocusableSlider(0.0, 0.10, 0.7, 0.10, 0.2, 3.0, 1.0, "Triangle scale")`
built in `GameFullUI.__init__`, at `t = 1/2` and at the out-of-range
argument `t = 7`. -/
theorem slider_round_trip_witness :
    (({ cx := 0, cy := 0.10, w := 0.7, h := 0.10, minv := 0.2, maxv := 3, value := 1,
        label := "Triangle scale" } : FocusableSlider).set_from_norm (1/2)).normalized = 1/2 ∧
    (({ cx := 0, cy := 0.10, w := 0.7, h := 0.10, minv := 0.2, maxv := 3, value := 1,
        label := "Triangle scale" } : FocusableSlider).set_from_norm 7).value ≤ 3 := by
  have h := slider_round_trip
    { cx := 0, cy := 0.10, w := 0.7, h := 0.10, minv := 0.2, maxv := 3, value := 1,
      label := "Triangle scale" } (by norm_num)
  exact ⟨h.1 (1/2) (by norm_num) (by norm_num), (h.2 7).2.1⟩

/-! ## Claim C4: per-frame transition step never overshoots -/

/-- C4: one per-frame transition update
`x1 = lerp(x, target, clamp(dt*k, 0, 1))` with `dt ≥ 0` and decay rate
`k = 6` or `k = 8` (window_gui.py lines 692-697) stays between the old
value and the target and does not increase the distance to the target. -/
theorem transition_no_overshoot (x target dt k : ℚ)
    (hdt : 0 ≤ dt) (hk : k = 6 ∨ k = 8) :
    min x target ≤ lerp x target (clamp (dt * k) 0 1) ∧
    lerp x target (clamp (dt * k) 0 1) ≤ max x target ∧
    |lerp x target (clamp (dt * k) 0 1) - target| ≤ |x - target| := by
  set s : ℚ := clamp (dt * k) 0 1 with hs
  have hs0 : 0 ≤ s := le_max_left _ _
  have hs1 : s ≤ 1 := max_le (by norm_num) (min_le_left _ _)
  have hval : lerp x target s = x + (target - x) * s := rfl
  rcases le_total x target with h | h
  · rw [min_eq_left h, max_eq_right h]
    have h1 : x ≤ lerp x target s := by rw [hval]; nlinarith
    have h2 : lerp x target s ≤ target := by rw [hval]; nlinarith
    refine ⟨h1, h2, ?_⟩
    rw [abs_of_nonpos (by linarith), abs_of_nonpos (by linarith)]
    linarith
  · rw [min_eq_right h, max_eq_left h]
    have h1 : target ≤ lerp x target s := by rw [hval]; nlinarith
    have h2 : lerp x target s ≤ x := by rw [hval]; nlinarith
    refine ⟨h1, h2, ?_⟩
    rw [abs_of_nonneg (by linarith), abs_of_nonneg (by linarith)]
    linarith

/-- C4 witness: the transition step at `x = 0`, `target = 1`,
`dt = 1/10`, `k = 6`. -/
theorem transition_no_overshoot_witness :
    min (0 : ℚ) 1 ≤ lerp 0 1 (clamp ((1/10) * 6) 0 1) ∧
    lerp 0 1 (clamp ((1/10) * 6) 0 1) ≤ max (0 : ℚ) 1 ∧
    |lerp 0 1 (clamp ((1/10) * 6) 0 1) - 1| ≤ |(0 : ℚ) - 1| :=
  transition_no_overshoot 0 1 (1/10) 6 (by norm_num) (Or.inl rfl)

/-! ## GameFullUI state (window_gui.py lines 300-620)

The mutable fields of the Python object that the control logic reads or
writes.  GL handles, the atlas and timing/FPS bookkeeping are external and
elided.  In `__init__` the very same three button objects are stored in
both `self.home_buttons` and `self.menu_buttons`; the aliased pair is
modelled as the single field `main_buttons`. -/

/-- A member of the focus list: either a button or a slider (the Python
list holds references of either dataclass). -/
inductive Ctrl
  | btn (b : FocusableButton)
  | sld (s : FocusableSlider)
deriving DecidableEq

structure GameFullUI where
  main_buttons : List FocusableButton
  pause_buttons : List FocusableButton
  options_sliders : List FocusableSlider
  focus_list : List Ctrl
  focus_index : Int
  nav_repeat_delay : ℚ
  nav_last : ℚ
  joy_present : Bool
  joy_deadzone : ℚ
  gamepad_nav_last : ℚ
  gamepad_nav_repeat : ℚ
  scene : String
  show_options : Bool
  paused : Bool
  pause_menu_open : Bool
  w : ℚ
  h : ℚ
  win_should_close : Bool
deriving DecidableEq

/-- The state built by `GameFullUI.__init__` (window_gui.py lines 350-402). -/
def initState : GameFullUI where
  main_buttons := [
    { cx := 0, cy := 0.28, w := 1, h := 0.24, label := "Start", action := Act.startGame },
    { cx := 0, cy := -0.02, w := 1, h := 0.24, label := "Options", action := Act.toggleOptions },
    { cx := 0, cy := -0.36, w := 1, h := 0.24, label := "Quit", action := Act.quitGame }]
  pause_buttons := [
    { cx := 0, cy := 0.18, w := 0.6, h := 0.18, label := "Resume", action := Act.resumeFromPause },
    { cx := 0, cy := -0.02, w := 0.6, h := 0.18, label := "Options", action := Act.toggleOptions },
    { cx := 0, cy := -0.22, w := 0.6, h := 0.18, label := "Main Menu", action := Act.gotoMenu },
    { cx := 0, cy := -0.42, w := 0.6, h := 0.18, label := "Quit", action := Act.quitGame }]
  options_sliders := [
    { cx := 0, cy := 0.10, w := 0.7, h := 0.10, minv := 0.2, maxv := 3, value := 1,
      label := "Triangle scale" },
    { cx := 0, cy := -0.10, w := 0.7, h := 0.10, minv := 0.1, maxv := 3, value := 1,
      label := "Triangle speed" }]
  focus_list := []
  focus_index := 0
  nav_repeat_delay := 0.25
  nav_last := 0
  joy_present := false
  joy_deadzone := 0.5
  gamepad_nav_last := 0
  gamepad_nav_repeat := 0.25
  scene := "home"
  show_options := false
  paused := false
  pause_menu_open := false
  w := 1280
  h := 720
  win_should_close := false

/-! ### Actions (window_gui.py lines 411-431 and 545-546) -/

/-- Source: `def start_game(self)` -/
def GameFullUI.start_game (g : GameFullUI) : GameFullUI :=
  { g with scene := "playing", paused := false, pause_menu_open := false }

/-- Source: `def quit_game(self)`: `glfw.set_window_should_close(self.win, True)` -/
def GameFullUI.quit_game (g : GameFullUI) : GameFullUI :=
  { g with win_should_close := true }

/-- Source: `def goto_menu(self)` -/
def GameFullUI.goto_menu (g : GameFullUI) : GameFullUI :=
  { g with scene := "menu", show_options := false, paused := false, pause_menu_open := false }

/-- Source: `def resume_from_pause(self)` -/
def GameFullUI.resume_from_pause (g : GameFullUI) : GameFullUI :=
  { g with paused := false, pause_menu_open := false }

/-- Source: `def toggle_options(self)` -/
def GameFullUI.toggle_options (g : GameFullUI) : GameFullUI :=
  { g with show_options := !g.show_options }

/-- Source: `def _open_pause(self)`: `self.paused = True; self.pause_menu_open = True` -/
def GameFullUI._open_pause (g : GameFullUI) : GameFullUI :=
  { g with paused := true, pause_menu_open := true }

/-- Dispatch of the lambdas bound to buttons in `__init__` and
`build_focus_list`. -/
def GameFullUI.runAct (g : GameFullUI) : Act → GameFullUI
  | Act.startGame => g.start_game
  | Act.toggleOptions => g.toggle_options
  | Act.quitGame => g.quit_game
  | Act.resumeFromPause => g.resume_from_pause
  | Act.gotoMenu => g.goto_menu
  | Act.openPause => g._open_pause

/-! ### Focus list construction (window_gui.py lines 513-543) -/

/-- Which control collection `build_focus_list` selects in the current
state.  `hud` stands for the two lightweight HUD buttons the Python code
constructs on the fly in the `playing`, pause-closed branch. -/
inductive FocusSrc
  | mainB
  | pauseB
  | optsS
  | hud
  | nothing
deriving DecidableEq

/-- The branch structure of `build_focus_list`: `home` and `menu` both draw
from the aliased Start/Options/Quit buttons (`main_buttons`) or, when
`show_options`, from `options_sliders`; `playing` draws from the pause
menu (or options) when `pause_menu_open` and from the two HUD buttons
otherwise; any other scene yields the empty list. -/
def GameFullUI.focusSrc (g : GameFullUI) : FocusSrc :=
  if g.scene = "home" ∨ g.scene = "menu" then
    if g.show_options then FocusSrc.optsS else FocusSrc.mainB
  else if g.scene = "playing" then
    if g.pause_menu_open then
      if g.show_options then FocusSrc.optsS else FocusSrc.pauseB
    else FocusSrc.hud
  else FocusSrc.nothing

/-- The list `lst` computed by `build_focus_list`. -/
def GameFullUI.focusListOf (g : GameFullUI) : List Ctrl :=
  match g.focusSrc with
  | FocusSrc.mainB => g.main_buttons.map Ctrl.btn
  | FocusSrc.pauseB => g.pause_buttons.map Ctrl.btn
  | FocusSrc.optsS => g.options_sliders.map Ctrl.sld
  | FocusSrc.hud =>
      [Ctrl.btn { cx := -0.9, cy := 0.85, w := 0.12, h := 0.08, label := "Pause",
                  action := Act.openPause },
       Ctrl.btn { cx := -0.74, cy := 0.85, w := 0.22, h := 0.08, label := "MainMenu",
                  action := Act.gotoMenu }]
  | FocusSrc.nothing => []

/-- Source: `def build_focus_list(self)`: stores `lst` in `self.focus_list` and sets
`self.focus_index` to `-1` on an empty list, else to
`clamp(self.focus_index, 0, len(self.focus_list)-1)`. -/
def GameFullUI.build_focus_list (g : GameFullUI) : GameFullUI :=
  let lst := g.focusListOf
  { g with
    focus_list := lst,
    focus_index :=
      if lst.length = 0 then -1
      else clamp g.focus_index 0 ((lst.length : Int) - 1) }

/-! ### Focus navigation (window_gui.py lines 548-582) -/

/-- One step of the flag update loop
`for i, f in enumerate(self.focus_list): f.focused = (i == self.focus_index)`. -/
def flagCtrl (idx : Int) (p : Nat × Ctrl) : Ctrl :=
  match p.2 with
  | Ctrl.btn b => Ctrl.btn { b with focused := decide ((p.1 : Int) = idx) }
  | Ctrl.sld s => Ctrl.sld { s with focused := decide ((p.1 : Int) = idx) }

def flagCtrls (idx : Int) (l : List Ctrl) : List Ctrl :=
  l.enum.map (flagCtrl idx)

def flagBtns (idx : Int) (l : List FocusableButton) : List FocusableButton :=
  l.enum.map (fun p => { p.2 with focused := decide ((p.1 : Int) = idx) })

def flagSlds (idx : Int) (l : List FocusableSlider) : List FocusableSlider :=
  l.enum.map (fun p => { p.2 with focused := decide ((p.1 : Int) = idx) })

/-- The focused-flag writes of `move_focus`.  In Python the loop mutates the
objects referenced by `focus_list`; those objects are the elements of the
selected stored list (or the ephemeral HUD buttons), so the same update is
applied to the stored list the focus list was built from. -/
def GameFullUI.set_focus_flags (g : GameFullUI) : GameFullUI :=
  { g with
    focus_list := flagCtrls g.focus_index g.focus_list,
    main_buttons :=
      if g.focusSrc = FocusSrc.mainB then flagBtns g.focus_index g.main_buttons
      else g.main_buttons,
    pause_buttons :=
      if g.focusSrc = FocusSrc.pauseB then flagBtns g.focus_index g.pause_buttons
      else g.pause_buttons,
    options_sliders :=
      if g.focusSrc = FocusSrc.optsS then flagSlds g.focus_index g.options_sliders
      else g.options_sliders }

/-- Source: `def move_focus(self, delta)` with `tnow` standing for `time.time()`. -/
def GameFullUI.move_focus (g0 : GameFullUI) (delta : Int) (tnow : ℚ) : GameFullUI :=
  let g := g0.build_focus_list
  if g.focus_list = [] then g
  else if tnow - g.nav_last < g.nav_repeat_delay then g
  else
    let g1 := { g with
      nav_last := tnow,
      focus_index := (g.focus_index + delta) % (g.focus_list.length : Int) }
    g1.set_focus_flags

/-- Writes a changed slider back.  In Python `f = self.focus_list[i]` is a
reference to `self.options_sliders[i]` (sliders enter the focus list only
from that list), so mutating `f` updates both. -/
def GameFullUI.setSliderAt (g : GameFullUI) (i : Nat) (s1 : FocusableSlider) : GameFullUI :=
  { g with
    focus_list := g.focus_list.set i (Ctrl.sld s1),
    options_sliders :=
      if g.focusSrc = FocusSrc.optsS then g.options_sliders.set i s1
      else g.options_sliders }

/-- Source: `def activate_focused(self)` -/
def GameFullUI.activate_focused (g0 : GameFullUI) : GameFullUI :=
  let g := g0.build_focus_list
  if g.focus_list = [] ∨ g.focus_index < 0 then g
  else
    match g.focus_list[g.focus_index.toNat]? with
    | some (Ctrl.btn b) => g.runAct b.action
    | some (Ctrl.sld s) => g.setSliderAt g.focus_index.toNat { s with dragging := !s.dragging }
    | none => g

/-- Source: `def adjust_slider(self, delta_norm)` -/
def GameFullUI.adjust_slider (g0 : GameFullUI) (delta_norm : ℚ) : GameFullUI :=
  let g := g0.build_focus_list
  if g.focus_list = [] ∨ g.focus_index < 0 then g
  else
    match g.focus_list[g.focus_index.toNat]? with
    | some (Ctrl.sld s) =>
        g.setSliderAt g.focus_index.toNat (s.set_from_norm (s.normalized + delta_norm))
    | _ => g

/-! ### Input handlers (window_gui.py lines 438-510 and 585-620) -/

def GLFW_PRESS : Nat := 1
def GLFW_MOUSE_BUTTON_LEFT : Nat := 0
def GLFW_KEY_ESCAPE : Nat := 256
def GLFW_KEY_ENTER : Nat := 257
def GLFW_KEY_KP_ENTER : Nat := 335
def GLFW_KEY_TAB : Nat := 258
def GLFW_KEY_UP : Nat := 265
def GLFW_KEY_DOWN : Nat := 264
def GLFW_KEY_LEFT : Nat := 263
def GLFW_KEY_RIGHT : Nat := 262
def GLFW_KEY_O : Nat := 79
def GLFW_KEY_P : Nat := 80
def GLFW_KEY_Q : Nat := 81

/-- Source: `def window_coords_to_ndc(self, mx, my)` -/
def GameFullUI.window_coords_to_ndc (g : GameFullUI) (mx my : ℚ) : ℚ × ℚ :=
  ((mx / g.w) * 2 - 1, -((my / g.h) * 2 - 1))

/-- Source: `def on_key(self, wdw, key, scancode, action, mods)` with `tnow`
standing for the `time.time()` read inside `move_focus`. -/
def GameFullUI.on_key (g : GameFullUI) (key action : Nat) (tnow : ℚ) : GameFullUI :=
  if action ≠ GLFW_PRESS then g
  else if key = GLFW_KEY_ESCAPE then
    if g.scene = "playing" then
      { g with paused := !g.paused, pause_menu_open := !g.paused }
    else { g with win_should_close := true }
  else if key = GLFW_KEY_ENTER ∨ key = GLFW_KEY_KP_ENTER then g.activate_focused
  else if key = GLFW_KEY_TAB then g.move_focus 1 tnow
  else if key = GLFW_KEY_UP then g.move_focus (-1) tnow
  else if key = GLFW_KEY_DOWN then g.move_focus 1 tnow
  else if key = GLFW_KEY_LEFT then g.adjust_slider (-0.02)
  else if key = GLFW_KEY_RIGHT then g.adjust_slider 0.02
  else if key = GLFW_KEY_O then g.toggle_options
  else if key = GLFW_KEY_P then
    if g.scene = "playing" then
      { g with paused := !g.paused, pause_menu_open := !g.paused }
    else g
  else if key = GLFW_KEY_Q then { g with win_should_close := true }
  else g

/-- The HUD pause box test `(-0.9, 0.85, 0.12, 0.08)` from `on_mouse`. -/
def ifPauseBox (nx ny : ℚ) : Bool :=
  decide (-0.9 - 0.12 / 2 ≤ nx ∧ nx ≤ -0.9 + 0.12 / 2 ∧
    0.85 - 0.08 / 2 ≤ ny ∧ ny ≤ 0.85 + 0.08 / 2)

/-- Source: `def on_mouse(self, wdw, button, action, mods)` with `mx, my` standing
for `glfw.get_cursor_pos` (the handler ignores `action`). -/
def GameFullUI.on_mouse (g : GameFullUI) (button : Nat) (mx my : ℚ) : GameFullUI :=
  if button ≠ GLFW_MOUSE_BUTTON_LEFT then g
  else
    let nx := (g.window_coords_to_ndc mx my).1
    let ny := (g.window_coords_to_ndc mx my).2
    if g.scene = "home" ∨ g.scene = "menu" then
      if g.show_options then
        match g.options_sliders.findIdx? (fun s => s.contains nx ny) with
        | some i =>
            match g.options_sliders[i]? with
            | some s =>
                let s1 := { s with dragging := true, focused := true }
                { g with
                  options_sliders := g.options_sliders.set i s1,
                  focus_list := [Ctrl.sld s1],
                  focus_index := 0 }
            | none => g
        | none => g
      else
        match g.main_buttons.find? (fun b => b.contains nx ny) with
        | some b => g.runAct b.action
        | none => g
    else if g.scene = "playing" then
      -- pause menu buttons are tried first; when none is hit the click
      -- falls through to the pause icon test
      if g.pause_menu_open then
        match g.pause_buttons.find? (fun b => b.contains nx ny) with
        | some b => g.runAct b.action
        | none =>
            if ifPauseBox nx ny then { g with paused := true, pause_menu_open := true }
            else g
      else
        if ifPauseBox nx ny then { g with paused := true, pause_menu_open := true }
        else g
    else g

/-- The joystick scan at the top of `poll_gamepad`: `present` is whether
any joystick is currently connected (`joy_present` is never reset). -/
def GameFullUI.gamepad_scan (g0 : GameFullUI) (present : Bool) : GameFullUI :=
  if present then { g0 with joy_present := true } else g0

/-- The four-way axis dispatch inside `poll_gamepad`. -/
def GameFullUI.gamepad_nav_action (g : GameFullUI) (ax ay tnow : ℚ) : GameFullUI :=
  if ay < -0.5 then g.move_focus (-1) tnow
  else if ay > 0.5 then g.move_focus 1 tnow
  else if ax < -0.5 then g.adjust_slider (-0.02)
  else if ax > 0.5 then g.adjust_slider 0.02
  else g

/-- The `if axes:` block of `poll_gamepad`. -/
def GameFullUI.gamepad_axes_step (g : GameFullUI) (axes : List ℚ) (tnow : ℚ) : GameFullUI :=
  if axes ≠ [] then
    let ax := axes.getD 0 0
    let ay := axes.getD 1 0
    if |ax| > 0.5 ∨ |ay| > 0.5 then
      if tnow - g.gamepad_nav_last > g.gamepad_nav_repeat then
        { g.gamepad_nav_action ax ay tnow with gamepad_nav_last := tnow }
      else g
    else g
  else g

/-- The `button 0 to activate` block of `poll_gamepad`. -/
def GameFullUI.gamepad_button_step (g : GameFullUI) (buttons : List Nat) (tnow : ℚ) :
    GameFullUI :=
  if buttons ≠ [] ∧ buttons.getD 0 0 = GLFW_PRESS then
    if tnow - g.nav_last > 0.2 then
      { g.activate_focused with nav_last := tnow }
    else g
  else g

/-- Source: `def poll_gamepad(self)`: `present` is whether the joystick scan found
a joystick, `axes` and `buttons` are the polled values, `tnow` the frame
time. -/
def GameFullUI.poll_gamepad (g0 : GameFullUI) (present : Bool) (axes : List ℚ)
    (buttons : List Nat) (tnow : ℚ) : GameFullUI :=
  let g := g0.gamepad_scan present
  if !g.joy_present then g
  else (g.gamepad_axes_step axes tnow).gamepad_button_step buttons tnow

/-- The per-frame state updates of `run` that touch the modelled fields:
`build_focus_list` followed by the mouse-drag slider update
(window_gui.py lines 686 and 700-715). -/
def GameFullUI.frame (g0 : GameFullUI) (mb_left_pressed : Bool) (mx my : ℚ) : GameFullUI :=
  let g := g0.build_focus_list
  let nx := (g.window_coords_to_ndc mx my).1
  if mb_left_pressed then
    { g with options_sliders := g.options_sliders.map (fun s =>
        if s.visible && s.dragging then
          s.set_from_norm ((nx - (s.cx - s.w / 2)) / ((s.cx + s.w / 2) - (s.cx - s.w / 2)))
        else s) }
  else
    { g with options_sliders := g.options_sliders.map (fun s => { s with dragging := false }) }

/-! ### Events and reachability -/

/-- The discrete inputs `GameFullUI` reacts to: key callback, mouse
callback, gamepad poll, the per-frame update, and direct invocation of a
bound action. -/
inductive Event
  | key (key action : Nat) (tnow : ℚ)
  | mouse (button : Nat) (mx my : ℚ)
  | gamepad (present : Bool) (axes : List ℚ) (buttons : List Nat) (tnow : ℚ)
  | frame (mb_left : Bool) (mx my : ℚ)
  | act (a : Act)

def GameFullUI.step (g : GameFullUI) : Event → GameFullUI
  | Event.key k a t => g.on_key k a t
  | Event.mouse b mx my => g.on_mouse b mx my
  | Event.gamepad p ax bt t => g.poll_gamepad p ax bt t
  | Event.frame mb mx my => g.frame mb mx my
  | Event.act a => g.runAct a

/-- States reachable from the `__init__` state by any sequence of events. -/
inductive Reachable : GameFullUI → Prop
  | init : Reachable initState
  | step {g : GameFullUI} (e : Event) : Reachable g → Reachable (g.step e)

/-! ### Helper lemmas about the state operations -/

theorem clamp_le {α : Type} [LinearOrder α] (x a b : α) (hab : a ≤ b) :
    a ≤ clamp x a b ∧ clamp x a b ≤ b :=
  ⟨le_max_left _ _, max_le hab (min_le_left _ _)⟩

theorem clamp_of_mem {α : Type} [LinearOrder α] {x a b : α} (ha : a ≤ x) (hb : x ≤ b) :
    clamp x a b = x := by
  unfold clamp
  rw [min_eq_right hb, max_eq_right ha]

theorem build_focus_list_list (g : GameFullUI) :
    (g.build_focus_list).focus_list = g.focusListOf := rfl

theorem build_focus_list_index (g : GameFullUI) :
    (g.build_focus_list).focus_index =
      if g.focusListOf.length = 0 then -1
      else clamp g.focus_index 0 ((g.focusListOf.length : Int) - 1) := rfl

theorem flagCtrls_length (idx : Int) (l : List Ctrl) :
    (flagCtrls idx l).length = l.length := by
  unfold flagCtrls
  rw [List.length_map, List.enum_length]

theorem runAct_focus_fields (g : GameFullUI) (a : Act) :
    (g.runAct a).focus_list = g.focus_list ∧ (g.runAct a).focus_index = g.focus_index := by
  cases a <;> exact ⟨rfl, rfl⟩

/-! ### The focus-index invariant (claim C1) -/

/-- The invariant of the focus system: `-1` on an empty focus list,
otherwise an index into the list. -/
def focusInv (g : GameFullUI) : Prop :=
  (g.focus_list = [] → g.focus_index = -1) ∧
  (g.focus_list ≠ [] → 0 ≤ g.focus_index ∧ g.focus_index ≤ (g.focus_list.length : Int) - 1)

theorem focusInv_congr {g1 g2 : GameFullUI}
    (hl : g2.focus_list.length = g1.focus_list.length)
    (hi : g2.focus_index = g1.focus_index) (h : focusInv g1) : focusInv g2 := by
  constructor
  · intro he
    rw [hi]
    exact h.1 (List.length_eq_zero.mp (by rw [← hl, he, List.length_nil]))
  · intro hne
    rw [hi, hl]
    apply h.2
    intro he1
    exact hne (List.length_eq_zero.mp (by rw [hl, he1, List.length_nil]))

theorem build_focusInv (g : GameFullUI) : focusInv g.build_focus_list := by
  constructor
  · intro he
    rw [build_focus_list_index]
    rw [build_focus_list_list] at he
    simp [he]
  · intro hne
    rw [build_focus_list_list] at hne
    have hlen : g.focusListOf.length ≠ 0 := by
      intro h0; exact hne (List.length_eq_zero.mp h0)
    have h1 : (1 : Int) ≤ (g.focusListOf.length : Int) := by
      exact_mod_cast Nat.pos_of_ne_zero hlen
    rw [build_focus_list_index, build_focus_list_list, if_neg hlen]
    have := clamp_le g.focus_index 0 ((g.focusListOf.length : Int) - 1) (by omega)
    exact ⟨this.1, this.2⟩

theorem set_focus_flags_list (g : GameFullUI) :
    (g.set_focus_flags).focus_list = flagCtrls g.focus_index g.focus_list := rfl

theorem set_focus_flags_index (g : GameFullUI) :
    (g.set_focus_flags).focus_index = g.focus_index := rfl

theorem setSliderAt_focusInv {g : GameFullUI} (h : focusInv g) (i : Nat)
    (s1 : FocusableSlider) : focusInv (g.setSliderAt i s1) := by
  refine focusInv_congr ?_
    (show (g.setSliderAt i s1).focus_index = g.focus_index from rfl) h
  show (g.focus_list.set i (Ctrl.sld s1)).length = g.focus_list.length
  rw [List.length_set]

theorem focusInv_nav_update (g : GameFullUI) (tnow : ℚ) (delta : Int)
    (hne : g.focus_list ≠ []) :
    focusInv (({ g with nav_last := tnow, focus_index := (g.focus_index + delta) % (g.focus_list.length : Int) } : GameFullUI).set_focus_flags) := by
  have hlen : g.focus_list.length ≠ 0 := fun h0 => hne (List.length_eq_zero.mp h0)
  have hpos : (0 : Int) < (g.focus_list.length : Int) := by
    exact_mod_cast Nat.pos_of_ne_zero hlen
  constructor
  · intro he
    exfalso
    apply hlen
    have h2 := congrArg List.length he
    rw [set_focus_flags_list, flagCtrls_length] at h2
    exact h2
  · intro _
    refine ⟨?_, ?_⟩
    · show (0 : Int) ≤ (g.focus_index + delta) % (g.focus_list.length : Int)
      exact Int.emod_nonneg _ (by omega)
    · show (g.focus_index + delta) % (g.focus_list.length : Int) ≤
        ((flagCtrls ((g.focus_index + delta) % (g.focus_list.length : Int))
          g.focus_list).length : Int) - 1
      rw [flagCtrls_length]
      have := Int.emod_lt_of_pos (g.focus_index + delta) hpos
      omega

theorem move_focus_focusInv (g0 : GameFullUI) (delta : Int) (tnow : ℚ) :
    focusInv (g0.move_focus delta tnow) := by
  unfold GameFullUI.move_focus
  dsimp only
  split
  · exact build_focusInv g0
  · split
    · exact build_focusInv g0
    · case _ hne _ =>
      exact focusInv_nav_update (g0.build_focus_list) tnow delta hne

theorem activate_focusInv (g0 : GameFullUI) : focusInv g0.activate_focused := by
  unfold GameFullUI.activate_focused
  dsimp only
  split
  · exact build_focusInv g0
  · split
    · case _ b _ =>
      refine focusInv_congr ?_ ?_ (build_focusInv g0)
      · exact congrArg List.length (runAct_focus_fields _ b.action).1
      · exact (runAct_focus_fields _ b.action).2
    · case _ s _ =>
      exact setSliderAt_focusInv (build_focusInv g0) _ _
    · exact build_focusInv g0

theorem adjust_focusInv (g0 : GameFullUI) (delta_norm : ℚ) :
    focusInv (g0.adjust_slider delta_norm) := by
  unfold GameFullUI.adjust_slider
  dsimp only
  split
  · exact build_focusInv g0
  · split
    · case _ s _ =>
      exact setSliderAt_focusInv (build_focusInv g0) _ _
    · exact build_focusInv g0

/-- C1: after `build_focus_list` runs in any state the focus index is `-1`
exactly when the visible-control list is empty and otherwise lies in
`[0, len-1]`; `move_focus`, `activate_focused` and `adjust_slider` (which
rebuild the list first) also leave the state satisfying this invariant. -/
theorem focus_index_in_bounds (g : GameFullUI) (delta : Int) (tnow delta_norm : ℚ) :
    focusInv g.build_focus_list ∧
    focusInv (g.move_focus delta tnow) ∧
    focusInv g.activate_focused ∧
    focusInv (g.adjust_slider delta_norm) :=
  ⟨build_focusInv g, move_focus_focusInv g delta tnow, activate_focusInv g,
    adjust_focusInv g delta_norm⟩

/-! ### The scene and pause-flag invariants (claims C3 and C9) -/

/-- The scene field is one of the three documented values. -/
def sceneOK (g : GameFullUI) : Prop :=
  g.scene = "home" ∨ g.scene = "menu" ∨ g.scene = "playing"

/-- Combined inductive invariant: well-formed scene and
`pause_menu_open == paused`. -/
def stateInv (g : GameFullUI) : Prop :=
  sceneOK g ∧ g.paused = g.pause_menu_open

theorem initState_stateInv : stateInv initState := ⟨Or.inl rfl, rfl⟩

theorem runAct_stateInv {g : GameFullUI} (h : stateInv g) (a : Act) :
    stateInv (g.runAct a) := by
  cases a
  · exact ⟨Or.inr (Or.inr rfl), rfl⟩
  · exact ⟨h.1, h.2⟩
  · exact ⟨h.1, h.2⟩
  · exact ⟨h.1, rfl⟩
  · exact ⟨Or.inr (Or.inl rfl), rfl⟩
  · exact ⟨h.1, rfl⟩

theorem build_stateInv {g : GameFullUI} (h : stateInv g) :
    stateInv g.build_focus_list := h

theorem set_focus_flags_stateInv {g : GameFullUI} (h : stateInv g) :
    stateInv g.set_focus_flags := h

theorem move_focus_stateInv {g : GameFullUI} (h : stateInv g) (delta : Int) (tnow : ℚ) :
    stateInv (g.move_focus delta tnow) := by
  unfold GameFullUI.move_focus
  dsimp only
  split
  · exact h
  · split
    · exact h
    · exact h

theorem activate_stateInv {g : GameFullUI} (h : stateInv g) :
    stateInv g.activate_focused := by
  unfold GameFullUI.activate_focused
  dsimp only
  split
  · exact h
  · split
    · exact runAct_stateInv (build_stateInv h) _
    · exact h
    · exact h

theorem adjust_stateInv {g : GameFullUI} (h : stateInv g) (delta_norm : ℚ) :
    stateInv (g.adjust_slider delta_norm) := by
  unfold GameFullUI.adjust_slider
  dsimp only
  split
  · exact h
  · split
    · exact h
    · exact h

theorem on_key_stateInv {g : GameFullUI} (h : stateInv g) (key action : Nat) (tnow : ℚ) :
    stateInv (g.on_key key action tnow) := by
  rw [GameFullUI.on_key]
  by_cases h1 : action ≠ GLFW_PRESS
  · rw [if_pos h1]; exact h
  rw [if_neg h1]
  by_cases h2 : key = GLFW_KEY_ESCAPE
  · rw [if_pos h2]
    by_cases hs : g.scene = "playing"
    · rw [if_pos hs]; exact ⟨h.1, rfl⟩
    · rw [if_neg hs]; exact ⟨h.1, h.2⟩
  rw [if_neg h2]
  by_cases h3 : key = GLFW_KEY_ENTER ∨ key = GLFW_KEY_KP_ENTER
  · rw [if_pos h3]; exact activate_stateInv h
  rw [if_neg h3]
  by_cases h4 : key = GLFW_KEY_TAB
  · rw [if_pos h4]; exact move_focus_stateInv h 1 tnow
  rw [if_neg h4]
  by_cases h5 : key = GLFW_KEY_UP
  · rw [if_pos h5]; exact move_focus_stateInv h (-1) tnow
  rw [if_neg h5]
  by_cases h6 : key = GLFW_KEY_DOWN
  · rw [if_pos h6]; exact move_focus_stateInv h 1 tnow
  rw [if_neg h6]
  by_cases h7 : key = GLFW_KEY_LEFT
  · rw [if_pos h7]; exact adjust_stateInv h (-0.02)
  rw [if_neg h7]
  by_cases h8 : key = GLFW_KEY_RIGHT
  · rw [if_pos h8]; exact adjust_stateInv h 0.02
  rw [if_neg h8]
  by_cases h9 : key = GLFW_KEY_O
  · rw [if_pos h9]; exact runAct_stateInv h Act.toggleOptions
  rw [if_neg h9]
  by_cases h10 : key = GLFW_KEY_P
  · rw [if_pos h10]
    by_cases hs : g.scene = "playing"
    · rw [if_pos hs]; exact ⟨h.1, rfl⟩
    · rw [if_neg hs]; exact h
  rw [if_neg h10]
  by_cases h11 : key = GLFW_KEY_Q
  · rw [if_pos h11]; exact ⟨h.1, h.2⟩
  rw [if_neg h11]
  exact h

theorem on_mouse_stateInv {g : GameFullUI} (h : stateInv g) (button : Nat) (mx my : ℚ) :
    stateInv (g.on_mouse button mx my) := by
  unfold GameFullUI.on_mouse
  split
  · exact h
  dsimp only
  split
  · split
    · split
      · split
        · exact h
        · exact h
      · exact h
    · split
      · exact runAct_stateInv h _
      · exact h
  split
  · split
    · split
      · exact runAct_stateInv h _
      · split
        · exact ⟨h.1, rfl⟩
        · exact h
    · split
      · exact ⟨h.1, rfl⟩
      · exact h
  · exact h

theorem gamepad_scan_stateInv {g : GameFullUI} (h : stateInv g) (present : Bool) :
    stateInv (g.gamepad_scan present) := by
  unfold GameFullUI.gamepad_scan
  split
  · exact h
  · exact h

theorem gamepad_nav_action_stateInv {g : GameFullUI} (h : stateInv g) (ax ay tnow : ℚ) :
    stateInv (g.gamepad_nav_action ax ay tnow) := by
  unfold GameFullUI.gamepad_nav_action
  split
  · exact move_focus_stateInv h (-1) tnow
  split
  · exact move_focus_stateInv h 1 tnow
  split
  · exact adjust_stateInv h (-0.02)
  split
  · exact adjust_stateInv h 0.02
  · exact h

theorem gamepad_axes_step_stateInv {g : GameFullUI} (h : stateInv g) (axes : List ℚ)
    (tnow : ℚ) : stateInv (g.gamepad_axes_step axes tnow) := by
  unfold GameFullUI.gamepad_axes_step
  dsimp only
  split
  · split
    · split
      · exact ⟨(gamepad_nav_action_stateInv h _ _ tnow).1,
          (gamepad_nav_action_stateInv h _ _ tnow).2⟩
      · exact h
    · exact h
  · exact h

theorem gamepad_button_step_stateInv {g : GameFullUI} (h : stateInv g) (buttons : List Nat)
    (tnow : ℚ) : stateInv (g.gamepad_button_step buttons tnow) := by
  unfold GameFullUI.gamepad_button_step
  split
  · split
    · exact ⟨(activate_stateInv h).1, (activate_stateInv h).2⟩
    · exact h
  · exact h

theorem poll_gamepad_stateInv {g : GameFullUI} (h : stateInv g) (present : Bool)
    (axes : List ℚ) (buttons : List Nat) (tnow : ℚ) :
    stateInv (g.poll_gamepad present axes buttons tnow) := by
  unfold GameFullUI.poll_gamepad
  dsimp only
  split
  · exact gamepad_scan_stateInv h present
  · exact gamepad_button_step_stateInv
      (gamepad_axes_step_stateInv (gamepad_scan_stateInv h present) axes tnow) buttons tnow

theorem frame_stateInv {g : GameFullUI} (h : stateInv g) (mb : Bool) (mx my : ℚ) :
    stateInv (g.frame mb mx my) := by
  unfold GameFullUI.frame
  dsimp only
  split
  · exact h
  · exact h

theorem step_stateInv {g : GameFullUI} (h : stateInv g) (e : Event) :
    stateInv (g.step e) := by
  cases e
  · exact on_key_stateInv h _ _ _
  · exact on_mouse_stateInv h _ _ _
  · exact poll_gamepad_stateInv h _ _ _ _
  · exact frame_stateInv h _ _ _
  · exact runAct_stateInv h _

theorem reachable_stateInv {g : GameFullUI} (h : Reachable g) : stateInv g := by
  induction h with
  | init => exact initState_stateInv
  | step e _ ih => exact step_stateInv ih e

/-- C3: every state reachable from the initial `"home"` state through any
sequence of key, mouse and gamepad events, per-frame updates and bound
actions has `scene` equal to `"home"`, `"menu"` or `"playing"`. -/
theorem scene_machine_total {g : GameFullUI} (h : Reachable g) :
    g.scene = "home" ∨ g.scene = "menu" ∨ g.scene = "playing" :=
  (reachable_stateInv h).1

/-- C3 witness: the scene after pressing the Start action from the initial
state. -/
theorem scene_machine_total_witness :
    (initState.step (Event.act Act.startGame)).scene = "home" ∨
    (initState.step (Event.act Act.startGame)).scene = "menu" ∨
    (initState.step (Event.act Act.startGame)).scene = "playing" :=
  scene_machine_total (Reachable.step (Event.act Act.startGame) Reachable.init)

/-- C9: in every reachable state the flags `paused` and `pause_menu_open`
are equal — every handler writes them together to equal values. -/
theorem pause_flags_equal {g : GameFullUI} (h : Reachable g) :
    g.paused = g.pause_menu_open :=
  (reachable_stateInv h).2

/-- C9 witness: the flag equality after an Escape key press (key code 256,
press action 1) from the initial state. -/
theorem pause_flags_equal_witness :
    (initState.step (Event.key 256 1 0)).paused =
      (initState.step (Event.key 256 1 0)).pause_menu_open :=
  pause_flags_equal (Reachable.step (Event.key 256 1 0) Reachable.init)

/-! ### Claim C6: move_focus debounce -/

theorem build_focus_list_nav_last (g : GameFullUI) :
    (g.build_focus_list).nav_last = g.nav_last := rfl

theorem set_focus_flags_nav_last (g : GameFullUI) :
    (g.set_focus_flags).nav_last = g.nav_last := rfl

/-- C6 (amended): provided the pre-call focus index is already within the
bounds of the rebuilt (non-empty) focus list, `move_focus delta` called
within `nav_repeat_delay` of the last accepted navigation leaves
`focus_index`, every stored control (hence every focused flag) and
`nav_last` unchanged; otherwise it sets
`focus_index = (focus_index + delta) mod len` and records `nav_last = tnow`.
(Without the in-bounds proviso a within-debounce call can still change
`focus_index`, because the rebuild clamps it before the debounce check —
see the counterexample.) -/
theorem move_focus_debounce (g : GameFullUI) (delta : Int) (tnow : ℚ)
    (hne : (g.build_focus_list).focus_list ≠ [])
    (hlo : 0 ≤ g.focus_index)
    (hhi : g.focus_index ≤ ((g.build_focus_list).focus_list.length : Int) - 1) :
    (tnow - g.nav_last < g.nav_repeat_delay →
      (g.move_focus delta tnow).focus_index = g.focus_index ∧
      (g.move_focus delta tnow).main_buttons = g.main_buttons ∧
      (g.move_focus delta tnow).pause_buttons = g.pause_buttons ∧
      (g.move_focus delta tnow).options_sliders = g.options_sliders ∧
      (g.move_focus delta tnow).nav_last = g.nav_last) ∧
    (¬ tnow - g.nav_last < g.nav_repeat_delay →
      (g.move_focus delta tnow).focus_index =
        (g.focus_index + delta) % ((g.build_focus_list).focus_list.length : Int) ∧
      (g.move_focus delta tnow).nav_last = tnow) := by
  have hlstlen : g.focusListOf.length ≠ 0 := by
    intro h0
    exact hne (by rw [build_focus_list_list]; exact List.length_eq_zero.mp h0)
  have hidx : (g.build_focus_list).focus_index = g.focus_index := by
    rw [build_focus_list_index, if_neg hlstlen]
    exact clamp_of_mem hlo (by rw [build_focus_list_list] at hhi; exact hhi)
  constructor
  · intro hd
    have heq : g.move_focus delta tnow = g.build_focus_list := by
      unfold GameFullUI.move_focus
      dsimp only
      rw [if_neg hne,
        if_pos (show tnow - (g.build_focus_list).nav_last <
          (g.build_focus_list).nav_repeat_delay from hd)]
    rw [heq]
    exact ⟨hidx, rfl, rfl, rfl, rfl⟩
  · intro hd
    have heq : g.move_focus delta tnow =
        ({ g.build_focus_list with nav_last := tnow, focus_index := ((g.build_focus_list).focus_index + delta) % ((g.build_focus_list).focus_list.length : Int) } : GameFullUI).set_focus_flags := by
      unfold GameFullUI.move_focus
      dsimp only
      rw [if_neg hne,
        if_neg (show ¬ tnow - (g.build_focus_list).nav_last <
          (g.build_focus_list).nav_repeat_delay from hd)]
    rw [heq]
    constructor
    · rw [set_focus_flags_index]
      show ((g.build_focus_list).focus_index + delta) %
        ((g.build_focus_list).focus_list.length : Int) = _
      rw [hidx]
    · rfl

/-- C6 witness: from the initial state (three home buttons, index 0, last
navigation at time 0) a `move_focus 1` at time 1 is accepted and moves the
index to `(0 + 1) mod 3` while recording the time. -/
theorem move_focus_debounce_witness :
    (initState.move_focus 1 1).focus_index =
      (initState.focus_index + 1) % ((initState.build_focus_list).focus_list.length : Int) ∧
    (initState.move_focus 1 1).nav_last = 1 :=
  (move_focus_debounce initState 1 1 (by decide) (by decide) (by decide)).2
    (by norm_num [initState])

/-- A state with the options sliders visible in the menu scene while
`focus_index` still holds the value 3 left over from navigating the
four-button pause menu, the last accepted navigation having happened at
time 10. -/
def staleFocusState : GameFullUI :=
  { initState with scene := "menu", show_options := true, focus_index := 3, nav_last := 10 }

/-- C6 counterexample: calling `move_focus 1` at time `10.1`, i.e. only
`0.1 s` after the previous accepted navigation and hence inside the
`0.25 s` debounce interval, nevertheless changes `focus_index` (from 3 to
1): `move_focus` rebuilds the focus list and clamps the index to the new
two-element slider list before performing the debounce check. -/
theorem move_focus_debounce_cex :
    (101/10 : ℚ) - staleFocusState.nav_last < staleFocusState.nav_repeat_delay ∧
    (staleFocusState.move_focus 1 (101/10)).focus_index ≠ staleFocusState.focus_index := by
  have hd : (101/10 : ℚ) - staleFocusState.nav_last < staleFocusState.nav_repeat_delay := by
    norm_num [staleFocusState, initState]
  have hne : (staleFocusState.build_focus_list).focus_list ≠ [] := by decide
  have heq : staleFocusState.move_focus 1 (101/10) = staleFocusState.build_focus_list := by
    unfold GameFullUI.move_focus
    dsimp only
    rw [if_neg hne,
      if_pos (show (101/10 : ℚ) - (staleFocusState.build_focus_list).nav_last <
        (staleFocusState.build_focus_list).nav_repeat_delay from hd)]
  refine ⟨hd, ?_⟩
  rw [heq, build_focus_list_index]
  rw [show staleFocusState.focusListOf.length = 2 from by decide]
  decide

/-! ## GlyphAtlas row packing (window_gui.py lines 138-183)

`_build_atlas` first measures every glyph with Pillow (external) producing
a list of image sizes; the embedding takes that list of `(width, height)`
pairs as input and mirrors the packing loop.  The pasted `ch` and the GL
upload are elided. -/

namespace Atlas

/-- One entry of the `placements` list: position and pasted image size. -/
structure Placement where
  x : Nat
  y : Nat
  w : Nat
  h : Nat
deriving DecidableEq

/-- The loop state: cursor `x`, current row start `y`, current `row_h`,
accumulated `atlas_h`, and the `placements` list. -/
structure PackState where
  x : Nat
  y : Nat
  row_h : Nat
  atlas_h : Nat
  placements : List Placement
deriving DecidableEq

/-- One iteration of the packing loop for a glyph image of size
`g = (w, h)`: wrap to a new row when `x + w > atlas_w`, then record the
placement, advance `x` and grow `row_h`. -/
def packOne (atlas_w : Nat) (s : PackState) (g : Nat × Nat) : PackState :=
  let s1 := if s.x + g.1 > atlas_w then
      { s with x := 0, y := s.y + s.row_h, atlas_h := s.atlas_h + s.row_h, row_h := 0 }
    else s
  { s1 with
    placements := s1.placements ++ [{ x := s1.x, y := s1.y, w := g.1, h := g.2 }],
    x := s1.x + g.1,
    row_h := max s1.row_h g.2 }

/-- Source: `x = 0; y = 0; row_h = 0; placements = []; atlas_h = 0` -/
def initPack : PackState := { x := 0, y := 0, row_h := 0, atlas_h := 0, placements := [] }

/-- Source: `total_w`: the summed widths of the glyph images. -/
def totalWidth (gs : List (Nat × Nat)) : Nat := gs.foldl (fun a g => a + g.1) 0

/-- Source: `max_tex_w = min(total_w, 2048)`, which is also the final `atlas_w`. -/
def atlasWidth (gs : List (Nat × Nat)) : Nat := min (totalWidth gs) 2048

/-- The packing loop over all glyph images. -/
def buildAtlas (gs : List (Nat × Nat)) : PackState :=
  gs.foldl (packOne (atlasWidth gs)) initPack

/-- The final `atlas_h += row_h` after the loop. -/
def atlasHeight (gs : List (Nat × Nat)) : Nat :=
  (buildAtlas gs).atlas_h + (buildAtlas gs).row_h

/-- Two placements do not overlap (as half-open pixel rectangles). -/
def disj (p q : Placement) : Prop :=
  p.x + p.w ≤ q.x ∨ q.x + q.w ≤ p.x ∨ p.y + p.h ≤ q.y ∨ q.y + q.h ≤ p.y

/-- The height of a row: the maximum height of the placements in it. -/
def rowMax (r : List Placement) : Nat := r.foldr (fun p a => max p.h a) 0

/-- The summed heights of a list of rows. -/
def rowsHeight (rows : List (List Placement)) : Nat :=
  rows.foldr (fun r a => rowMax r + a) 0

theorem rowMax_cons (p : Placement) (t : List Placement) :
    rowMax (p :: t) = max p.h (rowMax t) := rfl

theorem rowMax_append (l1 l2 : List Placement) :
    rowMax (l1 ++ l2) = max (rowMax l1) (rowMax l2) := by
  induction l1 with
  | nil => simp [rowMax]
  | cons p t ih =>
    rw [List.cons_append, rowMax_cons, ih, rowMax_cons, max_assoc]

theorem le_rowMax_of_mem {p : Placement} {r : List Placement} (h : p ∈ r) :
    p.h ≤ rowMax r := by
  induction r with
  | nil => cases h
  | cons q t ih =>
    rw [rowMax_cons]
    rcases List.mem_cons.mp h with h1 | h1
    · rw [h1]; exact le_max_left _ _
    · exact le_trans (ih h1) (le_max_right _ _)

theorem rowsHeight_append (l1 l2 : List (List Placement)) :
    rowsHeight (l1 ++ l2) = rowsHeight l1 + rowsHeight l2 := by
  induction l1 with
  | nil => simp [rowsHeight]
  | cons r t ih =>
    show rowMax r + rowsHeight (t ++ l2) = rowMax r + rowsHeight t + rowsHeight l2
    rw [ih, Nat.add_assoc]

theorem rowsHeight_single (r : List Placement) : rowsHeight [r] = rowMax r := by
  show rowMax r + 0 = rowMax r
  rw [Nat.add_zero]

/-- Branch equation: the wrapping case of `packOne`. -/
theorem packOne_wrap {aw : Nat} {s : PackState} {g : Nat × Nat} (hx : s.x + g.1 > aw) :
    packOne aw s g =
      { x := 0 + g.1, y := s.y + s.row_h, row_h := max 0 g.2,
        atlas_h := s.atlas_h + s.row_h,
        placements := s.placements ++ [{ x := 0, y := s.y + s.row_h, w := g.1, h := g.2 }] } := by
  unfold packOne
  rw [if_pos hx]

/-- Branch equation: the non-wrapping case of `packOne`. -/
theorem packOne_no_wrap {aw : Nat} {s : PackState} {g : Nat × Nat} (hx : ¬ s.x + g.1 > aw) :
    packOne aw s g =
      { x := s.x + g.1, y := s.y, row_h := max s.row_h g.2, atlas_h := s.atlas_h,
        placements := s.placements ++ [{ x := s.x, y := s.y, w := g.1, h := g.2 }] } := by
  unfold packOne
  rw [if_neg hx]

end Atlas

namespace Atlas

/-- The inductive invariant of the packing loop: the placements split into
finished rows (`rows`) and the current row (`cur`); `y` is the sum of the
finished row heights and equals the accumulated `atlas_h`; `row_h` is the
height of the current row; finished rows lie entirely above `y`; the
current row lies at `y` and extends to the cursor `x`; everything fits in
the width and is pairwise disjoint. -/
structure PackInv (aw : Nat) (s : PackState) (rows : List (List Placement))
    (cur : List Placement) : Prop where
  split_eq : s.placements = rows.flatten ++ cur
  rows_ne : ∀ r ∈ rows, r ≠ ([] : List Placement)
  rows_y : ∀ r ∈ rows, ∃ yr, ∀ p ∈ r, p.y = yr
  cur_y : ∀ p ∈ cur, p.y = s.y
  y_eq : s.y = rowsHeight rows
  ah_eq : s.atlas_h = s.y
  rh_eq : s.row_h = rowMax cur
  x_le : s.x ≤ aw
  cur_nil_x : cur = [] → s.x = 0
  within_w : ∀ p ∈ s.placements, p.x + p.w ≤ aw
  old_below : ∀ p ∈ rows.flatten, p.y + p.h ≤ s.y
  cur_x : ∀ p ∈ cur, p.x + p.w ≤ s.x
  pw : s.placements.Pairwise disj

theorem initPack_inv (aw : Nat) : PackInv aw initPack [] [] := by
  refine ⟨rfl, ?_, ?_, ?_, rfl, rfl, rfl, Nat.zero_le _, fun _ => rfl, ?_, ?_, ?_, ?_⟩
  all_goals simp [initPack]

theorem packOne_inv {aw : Nat} {s : PackState} {rows : List (List Placement)}
    {cur : List Placement} (g : Nat × Nat) (hw : g.1 ≤ aw)
    (h : PackInv aw s rows cur) :
    ∃ rows1 cur1, PackInv aw (packOne aw s g) rows1 cur1 := by
  by_cases hx : s.x + g.1 > aw
  · -- wrap to a new row: the current row is finished
    have hcur_ne : cur ≠ [] := by
      intro he
      have := h.cur_nil_x he
      omega
    refine ⟨rows ++ [cur], [{ x := 0, y := s.y + s.row_h, w := g.1, h := g.2 }], ?_⟩
    rw [packOne_wrap hx]
    have hjoin : (rows ++ [cur]).flatten = rows.flatten ++ cur := by
      rw [List.flatten_append]; simp
    refine ⟨?_, ?_, ?_, ?_, ?_, ?_, ?_, ?_, ?_, ?_, ?_, ?_, ?_⟩
    · show s.placements ++ _ = _
      rw [h.split_eq, hjoin, List.append_assoc]
    · intro r hr
      rcases List.mem_append.mp hr with h1 | h1
      · exact h.rows_ne r h1
      · rw [List.mem_singleton.mp h1]; exact hcur_ne
    · intro r hr
      rcases List.mem_append.mp hr with h1 | h1
      · exact h.rows_y r h1
      · rw [List.mem_singleton.mp h1]; exact ⟨s.y, h.cur_y⟩
    · intro p hp
      rw [List.mem_singleton.mp hp]
    · show s.y + s.row_h = _
      rw [rowsHeight_append, rowsHeight_single, h.y_eq, h.rh_eq]
    · show s.atlas_h + s.row_h = s.y + s.row_h
      rw [h.ah_eq]
    · show max 0 g.2 = _
      simp [rowMax, Nat.max_comm]
    · show 0 + g.1 ≤ aw
      omega
    · intro he; cases he
    · intro p hp
      rcases List.mem_append.mp hp with h1 | h1
      · exact h.within_w p h1
      · rw [List.mem_singleton.mp h1]
        show 0 + g.1 ≤ aw
        omega
    · intro p hp
      rw [hjoin] at hp
      show p.y + p.h ≤ s.y + s.row_h
      rcases List.mem_append.mp hp with h1 | h1
      · have := h.old_below p h1
        omega
      · have hy := h.cur_y p h1
        have hh : p.h ≤ s.row_h := by rw [h.rh_eq]; exact le_rowMax_of_mem h1
        omega
    · intro p hp
      rw [List.mem_singleton.mp hp]
    · rw [List.pairwise_append]
      refine ⟨h.pw, List.pairwise_singleton _ _, ?_⟩
      intro q hq p hp
      rw [List.mem_singleton.mp hp]
      have hq2 := h.split_eq ▸ hq
      rcases List.mem_append.mp hq2 with h1 | h1
      · have := h.old_below q h1
        exact Or.inr (Or.inr (Or.inl (by show q.y + q.h ≤ s.y + s.row_h; omega)))
      · have hy := h.cur_y q h1
        have hh : q.h ≤ s.row_h := by rw [h.rh_eq]; exact le_rowMax_of_mem h1
        exact Or.inr (Or.inr (Or.inl (by show q.y + q.h ≤ s.y + s.row_h; omega)))
  · -- same row: append to the current row
    refine ⟨rows, cur ++ [{ x := s.x, y := s.y, w := g.1, h := g.2 }], ?_⟩
    rw [packOne_no_wrap hx]
    refine ⟨?_, h.rows_ne, h.rows_y, ?_, h.y_eq, h.ah_eq, ?_, ?_, ?_, ?_, h.old_below, ?_, ?_⟩
    · show s.placements ++ _ = _
      rw [h.split_eq, List.append_assoc]
    · intro p hp
      rcases List.mem_append.mp hp with h1 | h1
      · exact h.cur_y p h1
      · rw [List.mem_singleton.mp h1]
    · show max s.row_h g.2 = _
      rw [rowMax_append, h.rh_eq]
      simp [rowMax]
    · show s.x + g.1 ≤ aw
      omega
    · intro he
      exact absurd he (by simp)
    · intro p hp
      rcases List.mem_append.mp hp with h1 | h1
      · exact h.within_w p h1
      · rw [List.mem_singleton.mp h1]
        show s.x + g.1 ≤ aw
        omega
    · intro p hp
      show p.x + p.w ≤ s.x + g.1
      rcases List.mem_append.mp hp with h1 | h1
      · have := h.cur_x p h1
        omega
      · rw [List.mem_singleton.mp h1]
    · rw [List.pairwise_append]
      refine ⟨h.pw, List.pairwise_singleton _ _, ?_⟩
      intro q hq p hp
      rw [List.mem_singleton.mp hp]
      have hq2 := h.split_eq ▸ hq
      rcases List.mem_append.mp hq2 with h1 | h1
      · have := h.old_below q h1
        exact Or.inr (Or.inr (Or.inl (by show q.y + q.h ≤ s.y; omega)))
      · have := h.cur_x q h1
        exact Or.inl (by show q.x + q.w ≤ s.x; omega)

theorem buildLoop_inv (aw : Nat) (gs : List (Nat × Nat)) :
    ∀ (s : PackState) (rows : List (List Placement)) (cur : List Placement),
    (∀ g ∈ gs, g.1 ≤ aw) → PackInv aw s rows cur →
    ∃ rows1 cur1, PackInv aw (gs.foldl (packOne aw) s) rows1 cur1 := by
  induction gs with
  | nil => exact fun s rows cur _ h => ⟨rows, cur, h⟩
  | cons g t ih =>
    intro s rows cur hgs h
    obtain ⟨r1, c1, h1⟩ := packOne_inv g (hgs g (by simp)) h
    exact ih (packOne aw s g) r1 c1 (fun g2 hg2 => hgs g2 (by simp [hg2])) h1

end Atlas

/-- C7: provided every glyph image is no wider than
`atlas_w = min(total width, 2048)`, every placement recorded by the
packing loop of `_build_atlas` satisfies `x + w ≤ atlas_w` and
`y + h ≤ atlas_h`, no two placed rectangles overlap, and the final
`atlas_h` is the sum of the row heights, each row being a set of
placements sharing one `y` and its height the maximum image height in it. -/
theorem build_atlas_packing (gs : List (Nat × Nat))
    (hw : ∀ g ∈ gs, g.1 ≤ Atlas.atlasWidth gs) :
    (∀ p ∈ (Atlas.buildAtlas gs).placements,
      p.x + p.w ≤ Atlas.atlasWidth gs ∧ p.y + p.h ≤ Atlas.atlasHeight gs) ∧
    (Atlas.buildAtlas gs).placements.Pairwise Atlas.disj ∧
    ∃ rows : List (List Atlas.Placement),
      rows.flatten = (Atlas.buildAtlas gs).placements ∧
      (∀ r ∈ rows, r ≠ [] ∧ ∃ yr, ∀ p ∈ r, p.y = yr) ∧
      Atlas.atlasHeight gs = Atlas.rowsHeight rows := by
  obtain ⟨rows, cur, h⟩ :=
    Atlas.buildLoop_inv (Atlas.atlasWidth gs) gs Atlas.initPack [] [] hw
      (Atlas.initPack_inv _)
  have hba : Atlas.buildAtlas gs = gs.foldl (Atlas.packOne (Atlas.atlasWidth gs)) Atlas.initPack :=
    rfl
  rw [← hba] at h
  set s := Atlas.buildAtlas gs with hs
  have hah : Atlas.atlasHeight gs = s.atlas_h + s.row_h := rfl
  refine ⟨?_, ?_, ?_⟩
  · intro p hp
    refine ⟨h.within_w p hp, ?_⟩
    rw [h.split_eq] at hp
    rw [hah, h.ah_eq]
    rcases List.mem_append.mp hp with h1 | h1
    · have := h.old_below p h1
      omega
    · have hy := h.cur_y p h1
      have hh : p.h ≤ s.row_h := by rw [h.rh_eq]; exact Atlas.le_rowMax_of_mem h1
      omega
  · exact h.pw
  · by_cases hc : cur = []
    · refine ⟨rows, ?_, ?_, ?_⟩
      · rw [h.split_eq, hc, List.append_nil]
      · exact fun r hr => ⟨h.rows_ne r hr, h.rows_y r hr⟩
      · rw [hah, h.ah_eq, h.y_eq, h.rh_eq, hc]
        show _ + Atlas.rowMax [] = _
        simp [Atlas.rowMax]
    · refine ⟨rows ++ [cur], ?_, ?_, ?_⟩
      · rw [List.flatten_append, h.split_eq]
        simp
      · intro r hr
        rcases List.mem_append.mp hr with h1 | h1
        · exact ⟨h.rows_ne r h1, h.rows_y r h1⟩
        · rw [List.mem_singleton.mp h1]
          exact ⟨hc, s.y, h.cur_y⟩
      · rw [hah, h.ah_eq, h.y_eq, h.rh_eq, Atlas.rowsHeight_append, Atlas.rowsHeight_single]

/-- C7 witness: the packing of three glyph images of sizes `1500×10`,
`1000×20` and `600×5`; the total width 3100 exceeds 2048, so the atlas is
2048 wide and the loop wraps after the first image. -/
theorem build_atlas_packing_witness :
    (∀ g ∈ [(1500, 10), (1000, 20), (600, 5)],
      g.1 ≤ Atlas.atlasWidth [(1500, 10), (1000, 20), (600, 5)]) ∧
    ((∀ p ∈ (Atlas.buildAtlas [(1500, 10), (1000, 20), (600, 5)]).placements,
      p.x + p.w ≤ Atlas.atlasWidth [(1500, 10), (1000, 20), (600, 5)] ∧
      p.y + p.h ≤ Atlas.atlasHeight [(1500, 10), (1000, 20), (600, 5)]) ∧
    (Atlas.buildAtlas [(1500, 10), (1000, 20), (600, 5)]).placements.Pairwise Atlas.disj ∧
    ∃ rows : List (List Atlas.Placement),
      rows.flatten = (Atlas.buildAtlas [(1500, 10), (1000, 20), (600, 5)]).placements ∧
      (∀ r ∈ rows, r ≠ [] ∧ ∃ yr, ∀ p ∈ r, p.y = yr) ∧
      Atlas.atlasHeight [(1500, 10), (1000, 20), (600, 5)] = Atlas.rowsHeight rows) :=
  ⟨by decide, build_atlas_packing [(1500, 10), (1000, 20), (600, 5)] (by decide)⟩

/-! ## Glyph lookup and text drawing (window_gui.py lines 110-276)

The atlas dict `char -> (x, y, w, h)` is modelled as an association list;
the GL viewport query supplies `win_w`/`win_h` as parameters; the GL draw
calls at the end of `draw_text` are elided, the vertex list and pen
position being the observable result of the loop. -/

structure GlyphAtlas where
  font_size : Nat
  glyphs : List (Char × Nat × Nat × Nat × Nat)
  tex_w : Nat
  tex_h : Nat

/-- Source: `def get_glyph(self, ch): return self.glyphs.get(ch, None)` -/
def GlyphAtlas.get_glyph (a : GlyphAtlas) (ch : Char) : Option (Nat × Nat × Nat × Nat) :=
  (a.glyphs.find? (fun e => e.1 == ch)).map (fun e => e.2)

structure TextRenderer where
  atlas : GlyphAtlas

/-- One iteration of the `for ch in text` loop of `draw_text`: the state is
the vertex list built so far and `pen_x` (`pen_y = top_ndc` never
changes).  A missing glyph advances the pen by
`space_px = font_size if font_size else 10` converted to NDC and emits
nothing; a present glyph emits two triangles (30 floats) and advances the
pen by its own NDC width. -/
def TextRenderer.draw_char (r : TextRenderer) (win_w win_h pen_y alpha : ℚ)
    (st : List ℚ × ℚ) (ch : Char) : List ℚ × ℚ :=
  match r.atlas.get_glyph ch with
  | none =>
      let space_px : ℚ := if r.atlas.font_size ≠ 0 then (r.atlas.font_size : ℚ) else 10
      (st.1, st.2 + (space_px / win_w) * 2)
  | some g =>
      let gx : ℚ := g.1
      let gy : ℚ := g.2.1
      let gw : ℚ := g.2.2.1
      let gh : ℚ := g.2.2.2
      let ndc_w := (gw / win_w) * 2
      let ndc_h := (gh / win_h) * 2
      let left := st.2
      let right := st.2 + ndc_w
      let top := pen_y
      let bottom := pen_y - ndc_h
      let uv_left := gx / (r.atlas.tex_w : ℚ)
      let uv_top := gy / (r.atlas.tex_h : ℚ)
      let uv_right := (gx + gw) / (r.atlas.tex_w : ℚ)
      let uv_bottom := (gy + gh) / (r.atlas.tex_h : ℚ)
      (st.1 ++
        [left, bottom, uv_left, uv_bottom, alpha,
         right, bottom, uv_right, uv_bottom, alpha,
         right, top, uv_right, uv_top, alpha,
         left, bottom, uv_left, uv_bottom, alpha,
         right, top, uv_right, uv_top, alpha,
         left, top, uv_left, uv_top, alpha],
       st.2 + ndc_w)

/-- The vertex-building loop of `draw_text` over the whole string. -/
def TextRenderer.draw_text (r : TextRenderer) (win_w win_h : ℚ) (text : String)
    (left_ndc top_ndc alpha : ℚ) : List ℚ × ℚ :=
  text.data.foldl (r.draw_char win_w win_h top_ndc alpha) ([], left_ndc)

/-- C8: in the `draw_text` loop, a character missing from the atlas emits
no vertices and advances the pen by the fixed width
`(font_size, or 10 when it is 0) / win_w * 2`; a character present in the
atlas emits one quad (30 floats) and advances the pen by its own glyph
width `gw / win_w * 2`. -/
theorem draw_text_advance (r : TextRenderer) (win_w win_h pen_y alpha : ℚ)
    (verts : List ℚ) (pen_x : ℚ) (ch : Char) :
    (r.atlas.get_glyph ch = none →
      r.draw_char win_w win_h pen_y alpha (verts, pen_x) ch =
        (verts, pen_x +
          ((if r.atlas.font_size ≠ 0 then (r.atlas.font_size : ℚ) else 10) / win_w) * 2)) ∧
    (∀ gx gy gw gh : Nat, r.atlas.get_glyph ch = some (gx, gy, gw, gh) →
      (r.draw_char win_w win_h pen_y alpha (verts, pen_x) ch).1.length = verts.length + 30 ∧
      (r.draw_char win_w win_h pen_y alpha (verts, pen_x) ch).2 =
        pen_x + ((gw : ℚ) / win_w) * 2) := by
  constructor
  · intro hnone
    unfold TextRenderer.draw_char
    rw [hnone]
  · intro gx gy gw gh hsome
    unfold TextRenderer.draw_char
    rw [hsome]
    constructor
    · show (verts ++ _).length = _
      rw [List.length_append]
      rfl
    · rfl

/-- A concrete renderer whose atlas holds only the glyph for `A`. -/
def oneGlyphRenderer : TextRenderer :=
  { atlas := { font_size := 24, glyphs := [('A', 0, 0, 12, 20)], tex_w := 12, tex_h := 20 } }

/-- C8 witness: drawing `B` (absent) from pen 0 emits nothing and advances
by the font-size-derived width; drawing `A` (present) emits 30 floats and
advances by its glyph width. -/
theorem draw_text_advance_witness :
    oneGlyphRenderer.draw_char 800 600 0 1 ([], 0) 'B' =
      ([], 0 + ((if oneGlyphRenderer.atlas.font_size ≠ 0
        then (oneGlyphRenderer.atlas.font_size : ℚ) else 10) / 800) * 2) ∧
    (oneGlyphRenderer.draw_char 800 600 0 1 ([], 0) 'A').1.length =
      List.length ([] : List ℚ) + 30 ∧
    (oneGlyphRenderer.draw_char 800 600 0 1 ([], 0) 'A').2 = 0 + ((12 : ℚ) / 800) * 2 :=
  ⟨(draw_text_advance oneGlyphRenderer 800 600 0 1 [] 0 'B').1 (by decide),
   (draw_text_advance oneGlyphRenderer 800 600 0 1 [] 0 'A').2 0 0 12 20 (by decide)⟩

/-! ## Initialization failure models (claim C5)

Success or failure of the external glfw/GL calls is supplied as boolean
inputs; `Except.error` models a raised exception or `sys.exit`, and an
`Except.ok` result means the constructor or script continues running. -/

/-- Source: `compile_program` of window_gui.py (lines 86-107): raises
`RuntimeError(log)` at the first failed compile or link status. -/
def compile_program (vs_ok fs_ok link_ok : Bool) (vs_log fs_log prog_log : String) :
    Except String Unit :=
  if !vs_ok then Except.error vs_log
  else if !fs_ok then Except.error fs_log
  else if !link_ok then Except.error prog_log
  else Except.ok ()

/-- Source: `compile_shader` of demo_gui.py (lines 37-44): prints the info log when
the compile status is false, and returns the shader handle together with
the status — it never raises. -/
def compile_shader (status : Bool) : Unit × Bool := ((), status)

/-- The observable outcome of `GameFullUI.__init__` in demo_gui.py. -/
structure DemoInit where
  linked : Bool
deriving DecidableEq

/-- Source: `GameFullUI.__init__` of demo_gui.py (lines 91-116): raises on glfw or
window failure; on shader failure it merely stores the statuses returned by
`compile_shader`, links anyway, records `self.linked`, and continues. -/
def demo_init (glfw_ok win_ok vs_ok fs_ok link_ok : Bool) : Except String DemoInit :=
  if !glfw_ok then Except.error ("glfw.init failed")
  else if !win_ok then Except.error ("Failed to create window")
  else
    let _ok_vs := (compile_shader vs_ok).2
    let _ok_fs := (compile_shader fs_ok).2
    Except.ok { linked := link_ok }

/-- Source: `GameFullUI.__init__` of window_gui.py (lines 301-316): raises on glfw
or window failure and calls `compile_program` for both shader programs. -/
def game_full_ui_init (glfw_ok win_ok tri_vs_ok tri_fs_ok tri_link_ok
    ui_vs_ok ui_fs_ok ui_link_ok : Bool) (logs : String) : Except String Unit :=
  if !glfw_ok then Except.error ("glfw.init failed")
  else if !win_ok then Except.error ("Failed to create window")
  else do
    let _ ← compile_program tri_vs_ok tri_fs_ok tri_link_ok logs logs logs
    let _ ← compile_program ui_vs_ok ui_fs_ok ui_link_ok logs logs logs
    Except.ok ()

/-- Source: `Window.__init__` of window.py (and identically of the three
window_programmable scripts): raises `SystemError` on glfw or window
failure. -/
def window_init (glfw_ok win_ok : Bool) : Except String Unit :=
  if !glfw_ok then Except.error ("Could not initialize glfw")
  else if !win_ok then Except.error ("Could not create glfw window")
  else Except.ok ()

/-- The startup section of ui_debug_test.py: `sys.exit(1)` on glfw or
window failure and after a failed shader build
(`if not (ok_vs and ok_fs and ok_prog)`). -/
def ui_debug_main (glfw_ok win_ok vs_ok fs_ok link_ok : Bool) : Except String Unit :=
  if !glfw_ok then Except.error ("glfw.init failed")
  else if !win_ok then Except.error ("create_window failed")
  else if !(vs_ok && fs_ok && link_ok) then Except.error ("Shader build failed")
  else Except.ok ()

/-- C5 counterexample: in demo_gui.py a failed vertex-shader compile and a
failed program link are not fatal — `__init__` returns normally (with
`linked = false`) and the demo keeps running with the failed program, so
not every initialization failure terminates the process. -/
theorem init_failure_fatal_cex :
    demo_init true true false false false = Except.ok { linked := false } := rfl

/-- C5 (amended): glfw-init and window-creation failures are fatal in every
script, and shader compile/link failures are fatal in window_gui.py
(`compile_program` raises) and in ui_debug_test.py (which exits); but in
demo_gui.py a shader compile or link failure is only printed and
`__init__` returns normally, storing the link status. -/
theorem init_failure_fatality (glfw_ok win_ok vs_ok fs_ok link_ok : Bool) (logs : String) :
    (glfw_ok = false ∨ win_ok = false →
      (demo_init glfw_ok win_ok vs_ok fs_ok link_ok).isOk = false ∧
      (window_init glfw_ok win_ok).isOk = false ∧
      (ui_debug_main glfw_ok win_ok vs_ok fs_ok link_ok).isOk = false ∧
      (game_full_ui_init glfw_ok win_ok vs_ok fs_ok link_ok vs_ok fs_ok link_ok
        logs).isOk = false) ∧
    (vs_ok = false ∨ fs_ok = false ∨ link_ok = false →
      (compile_program vs_ok fs_ok link_ok logs logs logs).isOk = false ∧
      (ui_debug_main true true vs_ok fs_ok link_ok).isOk = false ∧
      (game_full_ui_init true true vs_ok fs_ok link_ok vs_ok fs_ok link_ok
        logs).isOk = false) ∧
    demo_init true true vs_ok fs_ok link_ok = Except.ok { linked := link_ok } := by
  refine ⟨?_, ?_, ?_⟩
  · intro hfail
    cases glfw_ok <;> cases win_ok <;>
      simp_all [demo_init, window_init, ui_debug_main, game_full_ui_init,
        Except.isOk, Except.toBool]
  · intro hfail
    cases vs_ok <;> cases fs_ok <;> cases link_ok <;>
      simp_all [compile_program, ui_debug_main, game_full_ui_init, Except.isOk,
        Except.toBool, Bind.bind, Except.bind]
  · cases vs_ok <;> cases fs_ok <;> rfl

/-- C5 witness for the amended statement: a glfw failure is fatal in all
four scripts, a link failure is fatal in window_gui.py and
ui_debug_test.py, and the same link failure leaves demo_gui.py running. -/
theorem init_failure_fatality_witness :
    ((demo_init false true true true true).isOk = false ∧
      (window_init false true).isOk = false ∧
      (ui_debug_main false true true true true).isOk = false ∧
      (game_full_ui_init false true true true true true true true ("log")).isOk = false) ∧
    ((compile_program true true false ("log") ("log") ("log")).isOk = false ∧
      (ui_debug_main true true true true false).isOk = false ∧
      (game_full_ui_init true true true true false true true false ("log")).isOk = false) ∧
    demo_init true true true true false = Except.ok { linked := false } :=
  ⟨(init_failure_fatality false true true true true ("log")).1 (Or.inl rfl),
   (init_failure_fatality true true true true false ("log")).2.1 (Or.inr (Or.inr rfl)),
   (init_failure_fatality true true true true false ("log")).2.2⟩
